import Mathlib

/-!
Verification of the Featrix model-card renderers.

Shallow embedding of the two renderers the claims are about:

* `src/javascript/model-card.js` — the standalone `FeatrixModelCard` object
  (`formatValue`, `formatPercentage`, the color tables, the four section
  renderers and `renderHTML`).  Its HTML template literals are transcribed
  byte-for-byte into the `…C<i>` string constants below (braces are written
  with `\x7b`/`\x7d` escapes, apostrophes with `\x27`).
* `src/unnamed/part_001` — the React `ModelCard` component: the chart-data
  derivations (`metricsChartData`, `featureTypeDistribution`,
  `columnStatisticsData`), `getModelTypeDisplay`, `formatValue` /
  `formatPercentage`, and the data-dependent section guards.

Modelling conventions:

* JSON documents are untrusted: every field that a renderer reads through a
  guard is `Option`-valued; JS falsiness of a string (`null`/`undefined`/`""`)
  is `strFalsy`/`falsyOr`.
* JS numbers are modelled as `ℚ`; `Number.prototype.toFixed` is `toFixedStr`
  (round to nearest, ties away from zero on the absolute value, per the
  ECMAScript algorithm), row counts as `ℤ` with `toLocaleInt` for
  `toLocaleString`.
* A JS member access that would throw a `TypeError` on `null`/`undefined`
  (the React component's unguarded `session_id.substring(0, 20)`) is embedded
  in `Except String`.
* `Object.entries` enumeration order follows the ECMAScript ordinary
  own-property-key order: keys that are canonical array indices first, in
  ascending numeric order, then the remaining string keys in insertion order
  (`jsEntries`).
* `Array.prototype.sort` with the comparator `(a, b) => b.mutualInfo -
  a.mutualInfo` is the (ECMAScript-mandated stable) descending sort
  `List.insertionSort colRel`.
-/

namespace ModelCardVerif

/-! ## JS string and number primitives -/

/-- JS falsiness of an optional string: `null`/`undefined`/`""` are falsy. -/
def strFalsy : Option String → Bool
  | none => true
  | some s => s == ""

/-- `x || d` for an optional string `x` (JS `||` takes the default on a falsy
left operand, i.e. on `null`/`undefined`/`""`). -/
def falsyOr (o : Option String) (d : String) : String :=
  match o with
  | none => d
  | some s => if s = "" then d else s

/-- ASCII-lowercase a string (JS `toLowerCase` on the ASCII range). -/
def strLower (s : String) : String := ⟨s.data.map Char.toLower⟩

/-- ASCII-uppercase a string (JS `toUpperCase` on the ASCII range). -/
def strUpper (s : String) : String := ⟨s.data.map Char.toUpper⟩

/-- JS `s.substring(0, n)`. -/
def strTake (s : String) (n : ℕ) : String := ⟨s.data.take n⟩

/-- The decimal digits of a natural number, most significant first
(JS `String(n)` for a nonnegative integer).  Fuel-based so that it is
kernel-reducible; `n + 1` units of fuel always suffice. -/
def natCharsAux : ℕ → ℕ → List Char
  | 0, _ => []
  | fuel + 1, n =>
    if n < 10 then [Nat.digitChar n]
    else natCharsAux fuel (n / 10) ++ [Nat.digitChar (n % 10)]

def natChars (n : ℕ) : List Char := natCharsAux (n + 1) n

def natStr (n : ℕ) : String := ⟨natChars n⟩

/-- JS `String(i)` for an integer. -/
def intStr (i : ℤ) : String := (if i < 0 then "-" else "") ++ natStr i.natAbs

/-- Left-pad a digit list with `'0'` to length `p`. -/
def padZeros (p : ℕ) (l : List Char) : List Char :=
  List.replicate (p - l.length) '0' ++ l

/-- `Number.prototype.toFixed(p)` on a rational: per the ECMAScript spec the
sign is taken first, then `n` is the integer that minimises `|n / 10^p - |v||`,
ties resolved towards the larger `n`, rendered with exactly `p` fraction
digits. -/
def toFixedStr (v : ℚ) (p : ℕ) : String :=
  let sign : String := if v < 0 then "-" else ""
  let n : ℕ := (⌊|v| * (10 : ℚ) ^ p + 1 / 2⌋).toNat
  if p = 0 then sign ++ natStr n
  else sign ++ natStr (n / 10 ^ p) ++ "." ++ ⟨padZeros p (natChars (n % 10 ^ p))⟩

/-- `s.replace(/\.?0+$/, '')` — the leftmost (hence unique, end-anchored)
match of the regex removes the maximal run of trailing `'0'`s together with a
`'.'` immediately preceding that run; if there is no trailing zero the string
is unchanged. -/
def stripAfterZeros : List Char → List Char
  | [] => []
  | c :: rest => if c = '.' then rest.reverse else (c :: rest).reverse

def regexStripL (l : List Char) : List Char :=
  if l.reverse.takeWhile (· == '0') = [] then l
  else stripAfterZeros (l.reverse.dropWhile (· == '0'))

def regexStripStr (s : String) : String := ⟨regexStripL s.data⟩

/-- `String(n).padStart(2, '0')`. -/
def jsPad2 (n : ℕ) : String :=
  let l := natChars n
  ⟨if l.length < 2 then '0' :: l else l⟩

/-- Insert `','` after every three digits of a reversed digit list. -/
def commaGroupAux : List Char → List Char
  | a :: b :: c :: d :: rest => a :: b :: c :: ',' :: commaGroupAux (d :: rest)
  | l => l

/-- JS `Number.prototype.toLocaleString()` for an integer in an en-US-style
locale: decimal digits grouped in threes by commas. -/
def toLocaleInt (i : ℤ) : String :=
  (if i < 0 then "-" else "") ++ ⟨(commaGroupAux (natChars i.natAbs).reverse).reverse⟩

/-- The digit value of an ASCII digit character. -/
def charDigit? (c : Char) : Option ℕ :=
  if '0' ≤ c ∧ c ≤ '9' then some (c.toNat - '0'.toNat) else none

def parseNatAux : List Char → ℕ → Option ℕ
  | [], acc => some acc
  | c :: r, acc =>
    match charDigit? c with
    | some d => parseNatAux r (acc * 10 + d)
    | none => none

/-- Parse a nonempty all-digit string. -/
def strToNat? (s : String) : Option ℕ :=
  match s.data with
  | [] => none
  | l => parseNatAux l 0

/-- An ECMAScript array-index property key: the canonical decimal string of an
integer `n` with `0 ≤ n < 2^32 - 1`. -/
def isArrayIndexKey (s : String) : Bool :=
  match strToNat? s with
  | some n => (natStr n == s) && decide (n < 4294967295)
  | none => false

def keyNum (s : String) : ℕ := (strToNat? s).getD 0

/-- `Object.entries` enumeration order (ECMAScript `OrdinaryOwnPropertyKeys`):
array-index keys first in ascending numeric order, then the remaining keys in
insertion order. -/
def jsEntries {β : Type} (l : List (String × β)) : List (String × β) :=
  List.insertionSort (fun a b => keyNum a.1 ≤ keyNum b.1)
      (l.filter (fun p => isArrayIndexKey p.1))
    ++ l.filter (fun p => !isArrayIndexKey p.1)

/-! ## The model-card document (untrusted input: any field may be absent) -/

structure ModelIdentification where
  session_id : Option String
  job_id : Option String
  name : Option String
  target_column : Option String
  target_column_type : Option String
  compute_cluster : Option String
  training_date : Option String
  status : Option String
  model_type : Option String
  framework : Option String

def emptyMI : ModelIdentification :=
  ⟨none, none, none, none, none, none, none, none, none, none⟩

structure TrainingDataset where
  train_rows : Option ℤ
  val_rows : Option ℤ
  total_rows : Option ℤ
  total_features : Option ℤ
  target_column : Option String

def emptyTD : TrainingDataset := ⟨none, none, none, none, none⟩

structure ClassificationMetrics where
  accuracy : Option ℚ
  precision : Option ℚ
  «recall» : Option ℚ
  f1 : Option ℚ
  auc : Option ℚ
  is_binary : Option Bool

structure TrainingMetrics where
  classification_metrics : Option ClassificationMetrics

def emptyTM : TrainingMetrics := ⟨none⟩

structure QualityWarning where
  type : Option String
  severity : Option String
  message : Option String
  recommendation : Option String

structure Recommendation where
  issue : String
  suggestion : String

structure ModelQuality where
  assessment : Option String
  recommendations : Option (List Recommendation)
  warnings : Option (List QualityWarning)
  training_quality_warning : Option String

def emptyMQ : ModelQuality := ⟨none, none, none, none⟩

structure ColumnStats where
  mutual_information_bits : Option ℚ
  marginal_loss : Option ℚ

structure Feature where
  name : String
  type : String

structure Doc where
  model_identification : Option ModelIdentification
  training_dataset : Option TrainingDataset
  feature_inventory : Option (List Feature)
  training_metrics : Option TrainingMetrics
  model_quality : Option ModelQuality
  column_statistics : Option (List (String × ColumnStats))

def emptyDoc : Doc := ⟨none, none, none, none, none, none⟩

/-! ## Byte-for-byte transcription of the JS HTML template literals -/

def miC0 : String := "\n    <div class=\"section\">\n        <div class=\"section-title\">Model Identification</div>\n        <div class=\"grid\">\n            <div class=\"metric\">\n                <div class=\"metric-label\">Session ID</div>\n                <div class=\"metric-value\" style=\"font-size: 18px;\">"
-- interp after miC0: ${sessionIdShort}
def miC1 : String := "</div>\n            </div>\n            <div class=\"metric\">\n                <div class=\"metric-label\">Compute Cluster</div>\n                <div class=\"metric-value\">"
-- interp after miC1: ${(mi.compute_cluster || 'N/A').toUpperCase()}
def miC2 : String := "</div>\n            </div>\n            <div class=\"metric\">\n                <div class=\"metric-label\">Training Date</div>\n                <div class=\"metric-value\" style=\"font-size: 18px;\">"
-- interp after miC2: ${mi.training_date || 'N/A'}
def miC3 : String := "</div>\n            </div>\n            <div class=\"metric\">\n                <div class=\"metric-label\">Status</div>\n                <div class=\"metric-value\"><span class=\"status-badge\" style=\"background-color: "
-- interp after miC3: ${statusColor}
def miC4 : String := "\">"
-- interp after miC4: ${(mi.status || 'N/A').toUpperCase()}
def miC5 : String := "</span></div>\n            </div>\n        </div>\n        <table>\n            <tr>\n                <th style=\"width: 250px;\">Job ID</th>\n                <td><code>"
-- interp after miC5: ${mi.job_id || 'N/A'}
def miC6 : String := "</code></td>\n            </tr>\n            <tr>\n                <th>Model Type</th>\n                <td>"
-- interp after miC6: ${mi.model_type || 'N/A'}
def miC7 : String := "</td>\n            </tr>\n            <tr>\n                <th>Target Column</th>\n                <td>"
-- interp after miC7: ${mi.target_column || 'N/A'}
def miC8 : String := "</td>\n            </tr>\n            <tr>\n                <th>Target Type</th>\n                <td>"
-- interp after miC8: ${mi.target_column_type || 'N/A'}
def miC9 : String := "</td>\n            </tr>\n            <tr>\n                <th>Framework</th>\n                <td>"
-- interp after miC9: ${mi.framework || 'N/A'}
def miC10 : String := "</td>\n            </tr>\n        </table>\n    </div>\n      "
def tdC0 : String := "\n    <div class=\"section\">\n        <div class=\"section-title\">Training Dataset</div>\n        <div class=\"grid\">\n            <div class=\"metric\">\n                <div class=\"metric-label\">Training Rows</div>\n                <div class=\"metric-value\">"
-- interp after tdC0: ${(td.train_rows || 0).toLocaleString()}
def tdC1 : String := "</div>\n            </div>\n            <div class=\"metric\">\n                <div class=\"metric-label\">Total Features</div>\n                <div class=\"metric-value\">"
-- interp after tdC1: ${td.total_features || 0}
def tdC2 : String := "</div>\n            </div>\n            <div class=\"metric\">\n                <div class=\"metric-label\">Target Column</div>\n                <div class=\"metric-value\" style=\"font-size: 18px;\">"
-- interp after tdC2: ${td.target_column || 'N/A'}
def tdC3 : String := "</div>\n            </div>\n            <div class=\"metric\">\n                <div class=\"metric-label\">Target Type</div>\n                <div class=\"metric-value\">"
-- interp after tdC3: ${(mi.target_column_type || 'N/A').toUpperCase()}
def tdC4 : String := "</div>\n            </div>\n        </div>\n    </div>\n      "
def tmHdrC0 : String := "\n    <div class=\"section\">\n        <div class=\"section-title\">Model Performance Metrics</div>\n      "
def tmGridC0 : String := "\n        <div class=\"grid\">\n            <div class=\"metric\">\n                <div class=\"metric-label\">Precision</div>\n                <div class=\"metric-value\">"
-- interp after tmGridC0: ${cm.precision !== null && cm.precision !== undefined ? cm.precision.toFixed(3) : 'N/A'}
def tmGridC1 : String := "</div>\n            </div>\n            <div class=\"metric\">\n                <div class=\"metric-label\">Recall</div>\n                <div class=\"metric-value\">"
-- interp after tmGridC1: ${cm.recall !== null && cm.recall !== undefined ? cm.recall.toFixed(3) : 'N/A'}
def tmGridC2 : String := "</div>\n            </div>\n            <div class=\"metric\">\n                <div class=\"metric-label\">F1 Score</div>\n                <div class=\"metric-value\">"
-- interp after tmGridC2: ${cm.f1 !== null && cm.f1 !== undefined ? cm.f1.toFixed(3) : 'N/A'}
def tmGridC3 : String := "</div>\n            </div>\n            <div class=\"metric\">\n                <div class=\"metric-label\">AUC</div>\n                <div class=\"metric-value\">"
-- interp after tmGridC3: ${cm.auc !== null && cm.auc !== undefined ? cm.auc.toFixed(3) : 'N/A'}
def tmGridC4 : String := "</div>\n            </div>\n        </div>\n        "
def tmFtrC0 : String := "\n    </div>\n      "
def mqHdrC0 : String := "\n    <div class=\"section\">\n        <div class=\"section-title\">Model Quality</div>\n      "
def mqAssessC0 : String := "\n        <table>\n            <tr>\n                <th style=\"width: 250px;\">Assessment</th>\n                <td><span class=\"quality-badge\" style=\"background-color: "
-- interp after mqAssessC0: ${qualityColor}
def mqAssessC1 : String := "\">"
-- interp after mqAssessC1: ${mq.assessment}
def mqAssessC2 : String := "</span></td>\n            </tr>\n        </table>\n        "
def mqWarnHdr : String := "<h3 style=\"margin: 15px 0 10px 0; font-size: 16px;\">Warnings</h3><div class=\"warnings-list\">"
def mqWarnC0 : String := "\n            <div class=\"warning-item\">\n                <div class=\"warning-header\">\n                    <span class=\"severity-badge\" style=\"background-color: "
-- interp after mqWarnC0: ${severityColor}
def mqWarnC1 : String := "\">"
-- interp after mqWarnC1: ${warning.severity || 'UNKNOWN'}
def mqWarnC2 : String := "</span>\n                    <strong>"
-- interp after mqWarnC2: ${warning.type || 'N/A'}
def mqWarnC3 : String := "</strong>\n                </div>\n                <div class=\"warning-message\">"
-- interp after mqWarnC3: ${warning.message || 'N/A'}
def mqWarnC4 : String := "</div>\n            </div>\n          "
def mqFtrC0 : String := "\n    </div>\n      "
def htmlC0 : String := "<!DOCTYPE html>\n<html>\n<head>\n    <meta charset=\"UTF-8\">\n    <title>Model Card - "
-- interp after htmlC0: ${modelName}
def htmlC1 : String := "</title>\n    <style>\n        * \x7b margin: 0; padding: 0; box-sizing: border-box; \x7d\n        body \x7b font-family: \x27Courier New\x27, monospace; background: #fff; color: #000; line-height: 1.4; \x7d\n        .page \x7b max-width: 1400px; margin: 0 auto; padding: 40px; \x7d\n        \n        .header \x7b border-bottom: 4px solid #000; padding-bottom: 20px; margin-bottom: 30px; \x7d\n        .header h1 \x7b font-size: 36px; font-weight: bold; letter-spacing: -1px; \x7d\n        .header .meta \x7b font-size: 14px; margin-top: 8px; \x7d\n        \n        .section \x7b margin: 30px 0; page-break-inside: avoid; \x7d\n        .section-title \x7b font-size: 18px; font-weight: bold; text-transform: uppercase; border-bottom: 2px solid #000; padding-bottom: 5px; margin-bottom: 15px; letter-spacing: 1px; \x7d\n        \n        .grid \x7b display: grid; grid-template-columns: repeat(4, 1fr); gap: 15px; margin: 15px 0; \x7d\n        .metric \x7b border: 1px solid #000; padding: 12px; \x7d\n        .metric-label \x7b font-size: 12px; text-transform: uppercase; letter-spacing: 0.5px; margin-bottom: 4px; \x7d\n        .metric-value \x7b font-size: 24px; font-weight: bold; \x7d\n        \n        table \x7b width: 100%; border-collapse: collapse; font-size: 14px; margin: 15px 0; \x7d\n        th \x7b background: #000; color: #fff; padding: 10px; text-align: left; font-weight: bold; font-size: 13px; text-transform: uppercase; \x7d\n        td \x7b border-bottom: 1px solid #ccc; padding: 8px 10px; \x7d\n        tr:hover \x7b background: #f5f5f5; \x7d\n        \n        .controls \x7b\n            margin-bottom: 20px;\n            padding: 15px;\n            background: #fff;\n            border: 1px solid #000;\n            display: flex;\n            gap: 10px;\n            flex-wrap: wrap;\n        \x7d\n        \n        .btn \x7b\n            padding: 8px 16px;\n            background: #000;\n            color: #fff;\n            border: 1px solid #000;\n            cursor: pointer;\n            font-size: 14px;\n            font-family: \x27Courier New\x27, monospace;\n        \x7d\n        \n        .btn:hover \x7b\n            background: #333;\n        \x7d\n        \n        .btn-secondary \x7b\n            background: #fff;\n            color: #000;\n        \x7d\n        \n        .btn-secondary:hover \x7b\n            background: #f5f5f5;\n        \x7d\n        \n        .status-badge, .quality-badge, .severity-badge \x7b\n            display: inline-block;\n            padding: 4px 12px;\n            color: white;\n            font-size: 12px;\n            font-weight: 600;\n        \x7d\n        \n        .warning-item \x7b\n            padding: 15px;\n            margin-bottom: 15px;\n            background: #fff3cd;\n            border-left: 4px solid #ffc107;\n        \x7d\n        \n        .warning-header \x7b\n            display: flex;\n            align-items: center;\n            gap: 10px;\n            margin-bottom: 10px;\n        \x7d\n        \n        code \x7b\n            background: #fff;\n            padding: 2px 6px;\n            border: 1px solid #000;\n            font-family: \x27Courier New\x27, monospace;\n            font-size: 13px;\n        \x7d\n        \n        @media print \x7b \n            @page \x7b size: letter; margin: 0.75in; \x7d\n            .page \x7b padding: 0; max-width: 100%; \x7d\n            .section \x7b page-break-inside: avoid; \x7d\n            .header \x7b page-break-after: always; \x7d\n            .controls \x7b display: none; \x7d\n            table \x7b font-size: 10pt; \x7d\n            .grid \x7b grid-template-columns: repeat(2, 1fr) !important; \x7d\n        \x7d\n    </style>\n</head>\n<body>\n    <div class=\"page\">\n        <div class=\"header\">\n            <h1>MODEL CARD: "
-- interp after htmlC1: ${modelName.toUpperCase()}
def htmlC2 : String := "</h1>\n            <div class=\"meta\">\n                <strong>Generated:</strong> "
-- interp after htmlC2: ${dateStr}
def htmlC3 : String := " UTC\n            </div>\n        </div>\n        \n        <div class=\"controls\">\n            <button class=\"btn\" id=\"expand-all-btn\">Expand All</button>\n            <button class=\"btn btn-secondary\" id=\"collapse-all-btn\">Collapse All</button>\n        </div>\n        \n        "
-- interp after htmlC3: ${sections}
def htmlC4 : String := "\n    </div>\n    \n    <script>\n        (function() \x7b\n            function expandAll() \x7b\n                var sections = document.querySelectorAll(\x27.section\x27);\n                sections.forEach(function(section) \x7b\n                    var table = section.querySelector(\x27#feature-table\x27);\n                    if (table) \x7b\n                        table.style.display = \x27block\x27;\n                        var icon = section.querySelector(\x27#toggle-icon\x27);\n                        if (icon) icon.textContent = \x27▲\x27;\n                    \x7d\n                \x7d);\n            \x7d\n            \n            function collapseAll() \x7b\n                var sections = document.querySelectorAll(\x27.section\x27);\n                sections.forEach(function(section) \x7b\n                    var table = section.querySelector(\x27#feature-table\x27);\n                    if (table) \x7b\n                        table.style.display = \x27none\x27;\n                        var icon = section.querySelector(\x27#toggle-icon\x27);\n                        if (icon) icon.textContent = \x27▼\x27;\n                    \x7d\n                \x7d);\n            \x7d\n            \n            function toggleFeatures() \x7b\n                var table = document.getElementById(\x27feature-table\x27);\n                var icon = document.getElementById(\x27toggle-icon\x27);\n                if (table && icon) \x7b\n                    if (table.style.display === \x27none\x27) \x7b\n                        table.style.display = \x27block\x27;\n                        icon.textContent = \x27▲\x27;\n                    \x7d else \x7b\n                        table.style.display = \x27none\x27;\n                        icon.textContent = \x27▼\x27;\n                    \x7d\n                \x7d\n            \x7d\n            \n            // Attach event listeners when DOM is ready\n            function attachListeners() \x7b\n                var expandBtn = document.getElementById(\x27expand-all-btn\x27);\n                var collapseBtn = document.getElementById(\x27collapse-all-btn\x27);\n                \n                if (expandBtn) \x7b\n                    expandBtn.addEventListener(\x27click\x27, expandAll);\n                \x7d\n                if (collapseBtn) \x7b\n                    collapseBtn.addEventListener(\x27click\x27, collapseAll);\n                \x7d\n                \n                // Make toggleFeatures available globally\n                window.toggleFeatures = toggleFeatures;\n            \x7d\n            \n            if (document.readyState === \x27loading\x27) \x7b\n                document.addEventListener(\x27DOMContentLoaded\x27, attachListeners);\n            \x7d else \x7b\n                attachListeners();\n            \x7d\n        \x7d)();\n    </script>\n</body>\n</html>"


/-! ## The standalone JS renderer (`src/javascript/model-card.js`) -/

/-- `getStatusColor` (model-card.js lines 50-56). -/
def jsGetStatusColor (status : Option String) : String :=
  let l := strLower (falsyOr status "")
  if l = "done" then "#28a745"
  else if l = "training" then "#ffc107"
  else if l = "failed" then "#dc3545"
  else "#6c757d"

/-- `getQualityColor` (model-card.js lines 61-69). -/
def jsGetQualityColor (assessment : Option String) : String :=
  match assessment with
  | none => "#6c757d"
  | some a =>
    if a = "" then "#6c757d"
    else
      let l := strLower a
      if l = "excellent" then "#28a745"
      else if l = "good" then "#007bff"
      else if l = "fair" then "#ffc107"
      else if l = "poor" then "#fd7e14"
      else "#6c757d"

/-- `getSeverityColor` (model-card.js lines 74-80). -/
def jsGetSeverityColor (severity : Option String) : String :=
  let l := strLower (falsyOr severity "")
  if l = "high" then "#dc3545"
  else if l = "moderate" then "#ffc107"
  else if l = "low" then "#007bff"
  else "#6c757d"

/-- The number branch shared by both `formatValue` implementations:
`value.toFixed(precision).replace(/\.?0+$/, '')`. -/
def formatValueNum (v : ℚ) (p : ℕ) : String := regexStripStr (toFixedStr v p)

/-- React `formatValue` (part_001 lines 188-195) restricted to a
number-or-null argument. -/
def reactFormatValue (v : Option ℚ) (p : ℕ) : String :=
  match v with
  | none => "N/A"
  | some x => formatValueNum x p

/-- JS `FeatrixModelCard.formatValue` (model-card.js lines 19-35) restricted
to a number-or-null argument. -/
def jsFormatValue (v : Option ℚ) (p : ℕ) : String :=
  match v with
  | none => "<em>N/A</em>"
  | some x => formatValueNum x p

/-- React `formatPercentage` (part_001 lines 197-200). -/
def reactFormatPercentage : Option ℚ → String
  | none => "N/A"
  | some v => toFixedStr (v * 100) 2 ++ "%"

/-- JS `FeatrixModelCard.formatPercentage` (model-card.js lines 40-45). -/
def jsFormatPercentage : Option ℚ → String
  | none => "<em>N/A</em>"
  | some v => toFixedStr (v * 100) 2 ++ "%"

/-- `mi.session_id ? mi.session_id.substring(0, 20) : 'N/A'`
(model-card.js line 88). -/
def jsSessionIdShort (mi : ModelIdentification) : String :=
  match mi.session_id with
  | none => "N/A"
  | some s => if s = "" then "N/A" else strTake s 20

/-- `renderModelIdentification` (model-card.js lines 85-135). -/
def jsRenderModelIdentification (d : Doc) : String :=
  let mi := d.model_identification.getD emptyMI
  let statusColor := jsGetStatusColor mi.status
  miC0 ++ jsSessionIdShort mi
    ++ miC1 ++ strUpper (falsyOr mi.compute_cluster "N/A")
    ++ miC2 ++ falsyOr mi.training_date "N/A"
    ++ miC3 ++ statusColor
    ++ miC4 ++ strUpper (falsyOr mi.status "N/A")
    ++ miC5 ++ falsyOr mi.job_id "N/A"
    ++ miC6 ++ falsyOr mi.model_type "N/A"
    ++ miC7 ++ falsyOr mi.target_column "N/A"
    ++ miC8 ++ falsyOr mi.target_column_type "N/A"
    ++ miC9 ++ falsyOr mi.framework "N/A"
    ++ miC10

/-- `renderTrainingDataset` (model-card.js lines 140-167). -/
def jsRenderTrainingDataset (d : Doc) : String :=
  let td := d.training_dataset.getD emptyTD
  let mi := d.model_identification.getD emptyMI
  tdC0 ++ toLocaleInt (td.train_rows.getD 0)
    ++ tdC1 ++ intStr (td.total_features.getD 0)
    ++ tdC2 ++ falsyOr td.target_column "N/A"
    ++ tdC3 ++ strUpper (falsyOr mi.target_column_type "N/A")
    ++ tdC4

/-- `cm.x !== null && cm.x !== undefined ? cm.x.toFixed(3) : 'N/A'`. -/
def jsFmtMetric3 (o : Option ℚ) : String :=
  match o with
  | none => "N/A"
  | some v => toFixedStr v 3

/-- The classification-metrics grid appended by `renderTrainingMetrics`
(model-card.js lines 184-203). -/
def jsClassGrid (cm : ClassificationMetrics) : String :=
  tmGridC0 ++ jsFmtMetric3 cm.precision
    ++ tmGridC1 ++ jsFmtMetric3 cm.«recall»
    ++ tmGridC2 ++ jsFmtMetric3 cm.f1
    ++ tmGridC3 ++ jsFmtMetric3 cm.auc
    ++ tmGridC4

/-- `renderTrainingMetrics` (model-card.js lines 172-211); the grid is
emitted only under `modelType === 'Single Predictor' &&
tm.classification_metrics`. -/
def jsRenderTrainingMetrics (d : Doc) : String :=
  let tm := d.training_metrics.getD emptyTM
  let modelType := falsyOr (d.model_identification.getD emptyMI).model_type ""
  tmHdrC0
    ++ (if modelType = "Single Predictor" then
          match tm.classification_metrics with
          | some cm => jsClassGrid cm
          | none => ""
        else "")
    ++ tmFtrC0

/-- One warning item of `renderModelQuality` (model-card.js lines 240-248). -/
def jsWarningItem (w : QualityWarning) : String :=
  mqWarnC0 ++ jsGetSeverityColor w.severity
    ++ mqWarnC1 ++ falsyOr w.severity "UNKNOWN"
    ++ mqWarnC2 ++ falsyOr w.type "N/A"
    ++ mqWarnC3 ++ falsyOr w.message "N/A"
    ++ mqWarnC4

/-- `renderModelQuality` (model-card.js lines 216-258): the section container
and its title are emitted unconditionally; the assessment table only under a
truthy `mq.assessment`, the warnings list only under `mq.warnings &&
mq.warnings.length > 0`. -/
def jsRenderModelQuality (d : Doc) : String :=
  let mq := d.model_quality.getD emptyMQ
  let part1 :=
    match mq.assessment with
    | none => ""
    | some a =>
      if a = "" then ""
      else mqAssessC0 ++ jsGetQualityColor (some a) ++ mqAssessC1 ++ a ++ mqAssessC2
  let part2 :=
    match mq.warnings with
    | none => ""
    | some ws =>
      if 0 < ws.length then mqWarnHdr ++ String.join (ws.map jsWarningItem) ++ "</div>"
      else ""
  mqHdrC0 ++ part1 ++ part2 ++ mqFtrC0

/-- The fields `renderHTML` reads from `new Date()` (the value of each JS
getter; `month0` is the 0-based `getMonth()`). -/
structure JsDate where
  fullYear : ℕ
  month0 : ℕ
  dayOfMonth : ℕ
  hours : ℕ
  minutes : ℕ
  seconds : ℕ

/-- The `dateStr` computed by `renderHTML` (model-card.js lines 332-338). -/
def jsDateStr (t : JsDate) : String :=
  natStr t.fullYear ++ "-" ++ jsPad2 (t.month0 + 1) ++ "-" ++ jsPad2 t.dayOfMonth
    ++ " " ++ jsPad2 t.hours ++ ":" ++ jsPad2 t.minutes ++ ":" ++ jsPad2 t.seconds

/-- `renderHTML` (model-card.js lines 330-529).  The current wall-clock time
read by `new Date()` is an explicit argument. -/
def jsRenderHTML (d : Doc) (now : JsDate) : String :=
  let modelName := falsyOr (d.model_identification.getD emptyMI).name "Model Card"
  let dateStr := jsDateStr now
  let sections := jsRenderModelIdentification d ++ jsRenderTrainingDataset d
    ++ jsRenderTrainingMetrics d ++ jsRenderModelQuality d
  htmlC0 ++ modelName ++ htmlC1 ++ strUpper modelName ++ htmlC2 ++ dateStr
    ++ htmlC3 ++ sections ++ htmlC4

/-! ## The React `ModelCard` component (`src/unnamed/part_001`) -/

/-- `getModelTypeDisplay` (part_001 lines 202-219). -/
def getModelTypeDisplay (modelType : Option String) (targetType : Option String) : String :=
  match modelType with
  | none => "N/A"
  | some mt =>
    if mt = "" then "N/A"
    else
      let mtL := strLower mt
      let ttL := strLower (targetType.getD "")
      if mtL = "embedding space" ∨ mtL = "es" then "Foundational Embedding Space"
      else if mtL = "single predictor" ∨ mtL = "sp" then
        if ttL = "set" then "Classifier"
        else if ttL = "scalar" then "Regression"
        else "Single Predictor"
      else mt

/-- `metricsChartData` (part_001 lines 260-273). -/
def metricsChartData (mi : ModelIdentification) (tm : TrainingMetrics) :
    Option (List (String × ℚ)) :=
  if mi.model_type ≠ some "Single Predictor" then none
  else
    match tm.classification_metrics with
    | none => none
    | some cm =>
      some (([("Accuracy", cm.accuracy.getD 0), ("Precision", cm.precision.getD 0),
              ("Recall", cm.«recall».getD 0), ("F1", cm.f1.getD 0),
              ("AUC", cm.auc.getD 0)]).filter (fun item => decide (0 < item.2)))

/-- The in-place update of `typeCounts[feat.type]`: increment the key if it is
already a property, otherwise append it with count 1. -/
def bumpCount : List (String × ℕ) → String → List (String × ℕ)
  | [], t => [(t, 1)]
  | (k, v) :: rest, t =>
    if k = t then (k, v + 1) :: rest else (k, v) :: bumpCount rest t

/-- The `typeCounts` object built by `featureTypeDistribution`
(part_001 lines 276-279), as an insertion-ordered association list. -/
def countTypes (feats : List Feature) : List (String × ℕ) :=
  feats.foldl (fun acc f => bumpCount acc f.type) []

/-- `featureTypeDistribution` (part_001 lines 275-281):
`Object.entries(typeCounts)` enumerated in JS property order. -/
def featureTypeDistribution (feats : List Feature) : List (String × ℕ) :=
  jsEntries (countTypes feats)

/-- One point of the column-statistics bar chart. -/
structure ColStatPoint where
  name : String
  mutualInfo : ℚ
  marginalLoss : ℚ
deriving DecidableEq

/-- The ordering given by the comparator `(a, b) => b.mutualInfo -
a.mutualInfo`: `a` may precede `b` iff `b.mutualInfo ≤ a.mutualInfo`. -/
def colRel (a b : ColStatPoint) : Prop := b.mutualInfo ≤ a.mutualInfo

instance : DecidableRel colRel := fun a b =>
  inferInstanceAs (Decidable (b.mutualInfo ≤ a.mutualInfo))

instance : IsTotal ColStatPoint colRel :=
  ⟨fun a b => le_total b.mutualInfo a.mutualInfo⟩

instance : IsTrans ColStatPoint colRel :=
  ⟨fun _ _ _ h1 h2 => le_trans h2 h1⟩

/-- The map step of `columnStatisticsData`: `{ name, mutualInfo:
stats.mutual_information_bits || 0, marginalLoss: stats.marginal_loss || 0 }`. -/
def seriesOf (m : List (String × ColumnStats)) : List ColStatPoint :=
  m.map (fun p => ⟨p.1, p.2.mutual_information_bits.getD 0, p.2.marginal_loss.getD 0⟩)

/-- The stable descending sort performed by `.sort((a, b) => b.mutualInfo -
a.mutualInfo)`. -/
def sortCols (l : List ColStatPoint) : List ColStatPoint :=
  List.insertionSort colRel l

/-- `columnStatisticsData` (part_001 lines 283-293). -/
def columnStatisticsData (cs : Option (List (String × ColumnStats))) :
    Option (List ColStatPoint) :=
  match cs with
  | none => none
  | some m => some ((sortCols (seriesOf (jsEntries m))).take 10)

/-- The guard on the column-statistics section (part_001 lines 1062-1064):
`data.column_statistics && Object.keys(data.column_statistics).length > 0 &&
renderSection(...)`. -/
def reactShowsColumnStats (d : Doc) : Bool :=
  match d.column_statistics with
  | none => false
  | some cs => 0 < cs.length

/-- The identification table of the React component (part_001 lines 619-646).
`data.model_identification.session_id.substring(0, 20)` dereferences the
field without a guard, so a missing object or a `null` `session_id` throws a
`TypeError`; React renders a bare `null` interpolation as empty text. -/
def reactIdentificationSection (d : Doc) : Except String (List (String × String)) :=
  match d.model_identification with
  | none => Except.error "TypeError: Cannot read properties of undefined"
  | some mi =>
    match mi.session_id with
    | none => Except.error "TypeError: Cannot read properties of null (reading substring)"
    | some sid =>
      Except.ok [("Session ID", strTake sid 20),
                 ("Compute Cluster", mi.compute_cluster.getD ""),
                 ("Job ID", mi.job_id.getD ""),
                 ("Target Type", strUpper (falsyOr mi.target_column_type "N/A")),
                 ("Framework", mi.framework.getD "")]


/-! ## Spec-side definitions (formalising the wording of `spec.md`) -/

/-- Spec 4.2: strip the trailing zeros of a rendered number. -/
def stripTrailingZerosL (l : List Char) : List Char :=
  (l.reverse.dropWhile (· == '0')).reverse

/-- Spec 4.2 `formatNumber`: fixed-point rounding to `precision` digits, then
strip trailing zeros, and strip the trailing decimal point if the result is a
whole number. -/
def specStripL (l : List Char) : List Char :=
  let t := stripTrailingZerosL l
  if t.getLast? = some '.' then t.dropLast else t

def specFormatNumber (v : ℚ) (p : ℕ) : String := ⟨specStripL (toFixedStr v p).data⟩

/-- Spec 4.5: the classification-metric series in the fixed order Accuracy,
Precision, Recall, F1, AUC, dropping any metric that is missing or exactly
zero. -/
def specClassSeries (cm : ClassificationMetrics) : List (String × ℚ) :=
  ([("Accuracy", cm.accuracy), ("Precision", cm.precision), ("Recall", cm.«recall»),
    ("F1", cm.f1), ("AUC", cm.auc)]).filterMap
    (fun q =>
      match q.2 with
      | none => none
      | some v => if v = 0 then none else some (q.1, v))

/-- Spec 4.5: the order of first occurrence of each distinct string. -/
def firstSeen (ts : List String) : List String :=
  ts.foldl (fun ks t => if t ∈ ks then ks else ks ++ [t]) []

/-! ## Concrete documents used by counterexamples and witnesses -/

/-- A document whose `model_quality` has no assessment, no recommendations and
an empty warnings array. -/
def mqEmptyDoc : Doc := ⟨none, none, none, none, some ⟨none, none, some [], none⟩, none⟩

/-- A document whose `model_quality` object has every field null. -/
def mqNullDoc : Doc := ⟨none, none, none, none, some ⟨none, none, none, none⟩, none⟩

/-- A document whose `model_identification` is present but has a null
`session_id` (and every other field null). -/
def nullSessionDoc : Doc := ⟨some emptyMI, none, none, none, none, none⟩

/-- Classification metrics with all five values present and nonzero. -/
def cmAll : ClassificationMetrics :=
  ⟨some 0.925, some 0.912, some 0.887, some 0.899, some 0.967, none⟩

/-- An identification whose `model_type` is exactly `"Single Predictor"`. -/
def miSP : ModelIdentification :=
  ⟨none, none, none, none, none, none, none, none, some "Single Predictor", none⟩

/-- An identification whose `model_type` is the lowercase `"single predictor"`. -/
def miSPLower : ModelIdentification :=
  ⟨none, none, none, none, none, none, none, none, some "single predictor", none⟩

/-- A document with lowercase `"single predictor"` model type and a full set
of classification metrics. -/
def spLowerDoc : Doc := ⟨some miSPLower, none, none, some ⟨some cmAll⟩, none, none⟩

/-- A column-statistics map with two columns tied on mutual information whose
second column name `"0"` is an array-index key. -/
def tieStats : List (String × ColumnStats) := [("a", ⟨some 1, none⟩), ("0", ⟨some 1, none⟩)]

/-- A twelve-column column-statistics map. -/
def twelveStats : List (String × ColumnStats) :=
  [("c01", ⟨some 0.31, none⟩), ("c02", ⟨some 1.52, none⟩), ("c03", ⟨none, none⟩),
   ("c04", ⟨some 0.77, none⟩), ("c05", ⟨some 0.77, none⟩), ("c06", ⟨some 2.04, none⟩),
   ("c07", ⟨some 0.05, none⟩), ("c08", ⟨some 1.11, none⟩), ("c09", ⟨some 0.42, none⟩),
   ("c10", ⟨some 0.9, none⟩), ("c11", ⟨some 1.2, none⟩), ("c12", ⟨some 0.66, none⟩)]

/-- Features whose `type` strings `"1"` and `"0"` are array-index keys. -/
def idxFeats : List Feature := [⟨"fa", "1"⟩, ⟨"fb", "0"⟩]

/-- Features with ordinary (non-index) `type` strings. -/
def plainFeats : List Feature := [⟨"fa", "scalar"⟩, ⟨"fb", "set"⟩, ⟨"fc", "scalar"⟩]


/-! ## General lemmas -/

theorem strDataAppend (a b : String) : (a ++ b).data = a.data ++ b.data := rfl

theorem strAppendEmpty (s : String) : s ++ "" = s := by
  cases s with
  | mk l => exact congrArg String.mk (List.append_nil l)

/-! ## C1 -/

/-- C1 counterexample: on a document whose `model_quality` has a null
assessment, null recommendations and an empty warnings array,
`renderModelQuality` still emits the section container with its
"Model Quality" title (the string `mqHdrC0 ++ mqFtrC0`), so the section is not
byte-absent from the `renderHTML` output. -/
theorem modelQuality_empty_shell :
    jsRenderModelQuality mqEmptyDoc = mqHdrC0 ++ mqFtrC0
    ∧ jsRenderModelQuality mqEmptyDoc ≠ "" := by
  constructor
  · with_unfolding_all decide
  · with_unfolding_all decide

/-- C1 amended: the React component's column-statistics section is emitted iff
the `column_statistics` map is present and nonempty (byte-absent otherwise),
but the JS `renderModelQuality` emits the titled section shell even when the
assessment is absent and the warnings are missing or empty. -/
theorem sectionPresence :
    (∀ d : Doc, reactShowsColumnStats d = true ↔
        ∃ cs, d.column_statistics = some cs ∧ cs ≠ [])
    ∧ (∀ (d : Doc) (mq : ModelQuality), d.model_quality = some mq →
        (mq.assessment = none ∨ mq.assessment = some "") →
        (mq.warnings = none ∨ mq.warnings = some []) →
        jsRenderModelQuality d = mqHdrC0 ++ mqFtrC0) := by
  constructor
  · intro d
    cases hcs : d.column_statistics with
    | none => simp [reactShowsColumnStats, hcs]
    | some cs => simp [reactShowsColumnStats, hcs, List.length_pos]
  · intro d mq hmq ha hw
    rcases ha with ha | ha <;> rcases hw with hw | hw <;>
      simp [jsRenderModelQuality, hmq, ha, hw, strAppendEmpty]

/-- C1 witness for `sectionPresence`: a document whose `model_quality` object
has every field null renders as the bare section shell. -/
theorem sectionPresence_witness :
    jsRenderModelQuality mqNullDoc = mqHdrC0 ++ mqFtrC0 :=
  sectionPresence.2 mqNullDoc ⟨none, none, none, none⟩ rfl (Or.inl rfl) (Or.inl rfl)

/-! ## C2 -/

/-- C2 counterexample: on a document whose `model_identification.session_id`
is null, the React component's identification section throws a `TypeError`
(`session_id.substring(0, 20)` on `null`) instead of rendering. -/
theorem react_nullSession_throws :
    reactIdentificationSection nullSessionDoc
      = Except.error "TypeError: Cannot read properties of null (reading substring)" := rfl

/-- C2 amended: on a null `session_id` the standalone JS renderer resolves the
field to the "N/A" sentinel and continues, while the React `ModelCard`
component throws and aborts its render. -/
theorem nullField_tolerance :
    ∀ (d : Doc) (mi : ModelIdentification),
      d.model_identification = some mi → mi.session_id = none →
      (∃ e, reactIdentificationSection d = Except.error e)
      ∧ jsSessionIdShort mi = "N/A" := by
  intro d mi hd hs
  refine ⟨⟨"TypeError: Cannot read properties of null (reading substring)", ?_⟩, ?_⟩
  · simp [reactIdentificationSection, hd, hs]
  · simp [jsSessionIdShort, hs]

/-- C2 witness for `nullField_tolerance` at the concrete document. -/
theorem nullField_tolerance_witness :
    (∃ e, reactIdentificationSection nullSessionDoc = Except.error e)
    ∧ jsSessionIdShort emptyMI = "N/A" :=
  nullField_tolerance nullSessionDoc emptyMI rfl rfl

/-! ## C3 -/

/-- C3 counterexample: `renderHTML` reads the wall clock (`new Date()`) into
its "Generated" line, so the same document rendered at two different clock
readings produces different bytes. -/
theorem renderHTML_not_clock_free :
    jsRenderHTML emptyDoc ⟨2025, 0, 1, 12, 0, 0⟩
      ≠ jsRenderHTML emptyDoc ⟨2025, 0, 1, 12, 0, 1⟩ := by
  intro h
  have hd := congrArg String.data h
  simp only [jsRenderHTML, strDataAppend, List.append_assoc] at hd
  have h1 := List.append_cancel_left hd
  have h2 := List.append_cancel_left h1
  have h3 := List.append_cancel_left h2
  have h4 := List.append_cancel_left h3
  have h5 := List.append_cancel_left h4
  have hl : (jsDateStr ⟨2025, 0, 1, 12, 0, 0⟩).data.length
      = (jsDateStr ⟨2025, 0, 1, 12, 0, 1⟩).data.length := by with_unfolding_all decide
  exact absurd (List.append_inj_left h5 hl) (by with_unfolding_all decide)

/-- C3 amended: `renderHTML` is a pure function of the document and of the
formatted clock reading: whenever two clock readings format to the same
`dateStr`, the outputs are byte-identical. -/
theorem renderHTML_pure_given_clock :
    ∀ (d : Doc) (t1 t2 : JsDate), jsDateStr t1 = jsDateStr t2 →
      jsRenderHTML d t1 = jsRenderHTML d t2 := by
  intro d t1 t2 h
  simp only [jsRenderHTML, h]

/-- C3 witness for `renderHTML_pure_given_clock` at a concrete document and
clock reading. -/
theorem renderHTML_pure_given_clock_witness :
    jsRenderHTML emptyDoc ⟨2025, 9, 11, 8, 30, 0⟩
      = jsRenderHTML emptyDoc ⟨2025, 9, 11, 8, 30, 0⟩ :=
  renderHTML_pure_given_clock emptyDoc ⟨2025, 9, 11, 8, 30, 0⟩ ⟨2025, 9, 11, 8, 30, 0⟩ rfl

/-! ## C8 -/

/-- C8 counterexample: the standalone JS `formatPercentage(null)` is the
string `"<em>N/A</em>"`, not the bare sentinel `"N/A"`. -/
theorem jsFormatPercentage_null :
    jsFormatPercentage none ≠ "N/A" ∧ jsFormatPercentage none = "<em>N/A</em>" := by
  constructor
  · with_unfolding_all decide
  · with_unfolding_all decide

/-- C8 amended: for a non-null value both implementations render
`v * 100` to exactly two decimal places with a trailing `%` (in particular
`0.452 ↦ "45.20%"`); on a null input the React component renders the bare
sentinel `"N/A"` while the standalone JS renderer wraps it as
`"<em>N/A</em>"`. -/
theorem formatPercentage_spec :
    (∀ v : ℚ, reactFormatPercentage (some v) = toFixedStr (v * 100) 2 ++ "%"
        ∧ jsFormatPercentage (some v) = toFixedStr (v * 100) 2 ++ "%")
    ∧ reactFormatPercentage none = "N/A"
    ∧ jsFormatPercentage none = "<em>N/A</em>"
    ∧ reactFormatPercentage (some 0.452) = "45.20%"
    ∧ jsFormatPercentage (some 0.452) = "45.20%" := by
  refine ⟨fun v => ⟨rfl, rfl⟩, rfl, rfl, ?_, ?_⟩
  · with_unfolding_all decide
  · with_unfolding_all decide

/-! ## C10 -/

/-- C10: the classification-metrics grid of the standalone HTML renderer and
the React chart series are gated on the exact, case-sensitive string
`"Single Predictor"`: for any other model type the renderer emits only the
bare section shell and the series is null. -/
theorem singlePredictor_gate :
    (∀ d : Doc,
        falsyOr (d.model_identification.getD emptyMI).model_type "" ≠ "Single Predictor" →
        jsRenderTrainingMetrics d = tmHdrC0 ++ tmFtrC0)
    ∧ (∀ (mi : ModelIdentification) (tm : TrainingMetrics),
        mi.model_type ≠ some "Single Predictor" → metricsChartData mi tm = none) := by
  constructor
  · intro d h
    simp only [jsRenderTrainingMetrics, if_neg h, strAppendEmpty]
  · intro mi tm h
    simp only [metricsChartData, if_pos h]

/-- C10 witness for `singlePredictor_gate`: the lowercase `"single predictor"`
(which the display logic accepts case-insensitively) does not produce the
grid or the series, even with all classification metrics present. -/
theorem singlePredictor_gate_witness :
    jsRenderTrainingMetrics spLowerDoc = tmHdrC0 ++ tmFtrC0
    ∧ metricsChartData miSPLower ⟨some cmAll⟩ = none :=
  ⟨singlePredictor_gate.1 spLowerDoc (by with_unfolding_all decide),
   singlePredictor_gate.2 miSPLower ⟨some cmAll⟩ (by with_unfolding_all decide)⟩


/-! ## C6 -/

/-- C6 counterexample: an empty raw model-type string is not passed through
unchanged — the falsiness guard `if (!modelType) return 'N/A'` maps it to the
sentinel. -/
theorem modelTypeDisplay_empty :
    getModelTypeDisplay (some "") none = "N/A"
    ∧ getModelTypeDisplay (some "") none ≠ "" := by
  constructor
  · with_unfolding_all decide
  · with_unfolding_all decide

/-- C6 amended: with case-insensitive matching, "embedding space"/"es" map to
"Foundational Embedding Space"; "single predictor"/"sp" branch on the
target-column type ("set" → "Classifier", "scalar" → "Regression", otherwise
"Single Predictor"); any other nonempty raw value passes through unchanged;
and a null or empty raw model-type maps to the sentinel "N/A". -/
theorem modelTypeDisplay_spec :
    ∀ (mt : String) (tt : Option String),
      ((strLower mt = "embedding space" ∨ strLower mt = "es") →
        getModelTypeDisplay (some mt) tt = "Foundational Embedding Space")
      ∧ ((strLower mt = "single predictor" ∨ strLower mt = "sp") →
          (strLower (tt.getD "") = "set" → getModelTypeDisplay (some mt) tt = "Classifier")
          ∧ (strLower (tt.getD "") = "scalar" → getModelTypeDisplay (some mt) tt = "Regression")
          ∧ (strLower (tt.getD "") ≠ "set" → strLower (tt.getD "") ≠ "scalar" →
              getModelTypeDisplay (some mt) tt = "Single Predictor"))
      ∧ (mt ≠ "" → strLower mt ≠ "embedding space" → strLower mt ≠ "es" →
          strLower mt ≠ "single predictor" → strLower mt ≠ "sp" →
          getModelTypeDisplay (some mt) tt = mt)
      ∧ getModelTypeDisplay none tt = "N/A"
      ∧ getModelTypeDisplay (some "") tt = "N/A" := by
  intro mt tt
  refine ⟨?_, ?_, ?_, rfl, by simp [getModelTypeDisplay]⟩
  · intro h
    have hne : mt ≠ "" := by
      rintro rfl
      rcases h with h | h <;> exact absurd h (by with_unfolding_all decide)
    simp only [getModelTypeDisplay, if_neg hne, if_pos h]
  · intro h
    have hne : mt ≠ "" := by
      rintro rfl
      rcases h with h | h <;> exact absurd h (by with_unfolding_all decide)
    have hno : ¬(strLower mt = "embedding space" ∨ strLower mt = "es") := by
      rcases h with h | h <;> rw [h] <;> with_unfolding_all decide
    refine ⟨?_, ?_, ?_⟩
    · intro hset
      simp only [getModelTypeDisplay, if_neg hne, if_neg hno, if_pos h, if_pos hset]
    · intro hscalar
      have hnset : ¬strLower (tt.getD "") = "set" := by
        rw [hscalar]; with_unfolding_all decide
      simp only [getModelTypeDisplay, if_neg hne, if_neg hno, if_pos h, if_neg hnset,
        if_pos hscalar]
    · intro hnset hnscalar
      simp only [getModelTypeDisplay, if_neg hne, if_neg hno, if_pos h, if_neg hnset,
        if_neg hnscalar]
  · intro h0 h1 h2 h3 h4
    have hno1 : ¬(strLower mt = "embedding space" ∨ strLower mt = "es") :=
      not_or.mpr ⟨h1, h2⟩
    have hno2 : ¬(strLower mt = "single predictor" ∨ strLower mt = "sp") :=
      not_or.mpr ⟨h3, h4⟩
    simp only [getModelTypeDisplay, if_neg h0, if_neg hno1, if_neg hno2]

/-- C6 witness for `modelTypeDisplay_spec`: the three examples of spec §8. -/
theorem modelTypeDisplay_spec_witness :
    getModelTypeDisplay (some "Single Predictor") (some "set") = "Classifier"
    ∧ getModelTypeDisplay (some "single predictor") (some "scalar") = "Regression"
    ∧ getModelTypeDisplay (some "Embedding Space") none = "Foundational Embedding Space" :=
  ⟨((modelTypeDisplay_spec "Single Predictor" (some "set")).2.1
      (Or.inl (by with_unfolding_all decide))).1 (by with_unfolding_all decide),
   ((modelTypeDisplay_spec "single predictor" (some "scalar")).2.1
      (Or.inl (by with_unfolding_all decide))).2.1 (by with_unfolding_all decide),
   (modelTypeDisplay_spec "Embedding Space" none).1
      (Or.inl (by with_unfolding_all decide))⟩


/-! ## C5 -/

theorem filter_orderedInsert_mi (v : ℚ) (a : ColStatPoint) (l : List ColStatPoint) :
    (List.orderedInsert colRel a l).filter (fun x => x.mutualInfo == v)
      = if a.mutualInfo = v then a :: l.filter (fun x => x.mutualInfo == v)
        else l.filter (fun x => x.mutualInfo == v) := by
  rw [List.orderedInsert_eq_take_drop, List.filter_append, List.filter_cons]
  by_cases hv : a.mutualInfo = v
  · have hpre : (l.takeWhile fun b => decide (¬ colRel a b)).filter
        (fun x => x.mutualInfo == v) = [] := by
      rw [List.filter_eq_nil_iff]
      intro y hy
      have hdec : (fun b => decide (¬ colRel a b)) y = true :=
        @List.mem_takeWhile_imp ColStatPoint (fun b => decide (¬ colRel a b)) l y hy
      have hy2 : ¬ colRel a y := of_decide_eq_true hdec
      simp only [beq_iff_eq]
      exact fun hyv => absurd hyv (ne_of_gt (hv ▸ (not_le.mp hy2)))
    rw [hpre, List.nil_append, if_pos hv, if_pos (by simp [hv] : (a.mutualInfo == v) = true)]
    congr 1
    conv_rhs => rw [← List.takeWhile_append_dropWhile (fun b => decide (¬ colRel a b)) l]
    rw [List.filter_append, hpre, List.nil_append]
  · rw [if_neg hv, if_neg (by simp [hv] : ¬ ((a.mutualInfo == v) = true))]
    rw [← List.filter_append, List.takeWhile_append_dropWhile]

theorem filter_sortCols (v : ℚ) (l : List ColStatPoint) :
    (sortCols l).filter (fun x => x.mutualInfo == v)
      = l.filter (fun x => x.mutualInfo == v) := by
  induction l with
  | nil => rfl
  | cons a t ih =>
    have step : sortCols (a :: t) = List.orderedInsert colRel a (sortCols t) := rfl
    rw [step, filter_orderedInsert_mi, List.filter_cons]
    by_cases h : a.mutualInfo = v
    · rw [if_pos h, if_pos (by simp [h] : (a.mutualInfo == v) = true), ih]
    · rw [if_neg h, if_neg (by simp [h] : ¬ ((a.mutualInfo == v) = true)), ih]

theorem sortCols_sorted (l : List ColStatPoint) : (sortCols l).Pairwise colRel :=
  List.sorted_insertionSort colRel l

/-- C5 amended: the column-statistics series maps each entry of the
`Object.entries` enumeration (array-index column names first) to its mutual
information, sorts descending by that value — stably with respect to that
enumeration order, as witnessed by the `filter` invariance — and keeps the
first 10 points; the emitted series is always of length at most 10 and
non-increasing in mutual information. -/
theorem columnStatistics_spec :
    (∀ m : List (String × ColumnStats),
        columnStatisticsData (some m) = some ((sortCols (seriesOf (jsEntries m))).take 10))
    ∧ (∀ (m : List (String × ColumnStats)) (out : List ColStatPoint),
        columnStatisticsData (some m) = some out →
        out.length ≤ 10 ∧ out.Pairwise (fun a b => b.mutualInfo ≤ a.mutualInfo))
    ∧ (∀ (m : List (String × ColumnStats)) (v : ℚ),
        (sortCols (seriesOf (jsEntries m))).filter (fun x => x.mutualInfo == v)
          = (seriesOf (jsEntries m)).filter (fun x => x.mutualInfo == v))
    ∧ columnStatisticsData none = none := by
  refine ⟨fun m => rfl, ?_, fun m v => filter_sortCols v _, rfl⟩
  intro m out h
  have hout : out = (sortCols (seriesOf (jsEntries m))).take 10 := by
    have h' : some ((sortCols (seriesOf (jsEntries m))).take 10) = some out := h
    exact (Option.some.inj h').symm
  subst hout
  constructor
  · rw [List.length_take]
    exact min_le_left _ _
  · exact List.Pairwise.sublist (List.take_sublist _ _) (sortCols_sorted _)

/-- C5 counterexample: two columns tied at mutual information 1, authored in
the order `"a"`, `"0"`; `Object.entries` moves the array-index name `"0"`
first, so the tie is emitted in the order `"0"`, `"a"` — not the original
(authored) order. -/
theorem columnStatistics_tie_order :
    columnStatisticsData (some tieStats) = some [⟨"0", 1, 0⟩, ⟨"a", 1, 0⟩]
    ∧ columnStatisticsData (some tieStats) ≠ some [⟨"a", 1, 0⟩, ⟨"0", 1, 0⟩] := by
  constructor
  · with_unfolding_all decide
  · with_unfolding_all decide

/-- C5 witness for `columnStatistics_spec`: on the twelve-column input the
series has length at most 10 and is non-increasing in mutual information. -/
theorem columnStatistics_spec_witness :
    ((sortCols (seriesOf (jsEntries twelveStats))).take 10).length ≤ 10
    ∧ ((sortCols (seriesOf (jsEntries twelveStats))).take 10).Pairwise
        (fun a b => b.mutualInfo ≤ a.mutualInfo) :=
  columnStatistics_spec.2.1 twelveStats _ (columnStatistics_spec.1 twelveStats)


/-! ## C4 -/

theorem filter_pos_eq_filterMap (l : List (String × Option ℚ))
    (h : ∀ q ∈ l, ∀ x ∈ q.2, (0:ℚ) ≤ x) :
    (l.map (fun q => (q.1, q.2.getD 0))).filter (fun q => decide (0 < q.2))
      = l.filterMap (fun q =>
          match q.2 with
          | none => none
          | some v => if v = 0 then none else some (q.1, v)) := by
  induction l with
  | nil => rfl
  | cons a rest ih =>
    have hr : ∀ q ∈ rest, ∀ x ∈ q.2, (0:ℚ) ≤ x :=
      fun q hq => h q (List.mem_cons_of_mem _ hq)
    obtain ⟨n, o⟩ := a
    cases o with
    | none =>
      simp only [List.map_cons, List.filter_cons, List.filterMap_cons, Option.getD_none]
      rw [if_neg (by simp : ¬ ((decide ((0:ℚ) < 0)) = true))]
      exact ih hr
    | some v =>
      have hv : (0:ℚ) ≤ v := h (n, some v) (List.mem_cons_self _ _) v rfl
      simp only [List.map_cons, List.filter_cons, List.filterMap_cons, Option.getD_some]
      rcases eq_or_lt_of_le hv with heq | hlt
      · rw [if_neg (by simp [← heq] : ¬ ((decide ((0:ℚ) < v)) = true)), ← heq]
        simp only [if_pos rfl]
        exact ih hr
      · rw [if_pos (by simp [hlt] : (decide ((0:ℚ) < v)) = true),
          if_neg (by exact (ne_of_gt hlt))]
        rw [ih hr]

/-- C4: when the model type is exactly "Single Predictor" and classification
metrics are present with (per the input contract) nonnegative values, the
chart series is the fixed-order list Accuracy, Precision, Recall, F1, AUC
with every missing (null) or exactly-zero metric dropped. -/
theorem metricsChartData_spec :
    ∀ (mi : ModelIdentification) (tm : TrainingMetrics) (cm : ClassificationMetrics),
      mi.model_type = some "Single Predictor" →
      tm.classification_metrics = some cm →
      (∀ x ∈ cm.accuracy, (0:ℚ) ≤ x) → (∀ x ∈ cm.precision, (0:ℚ) ≤ x) →
      (∀ x ∈ cm.«recall», (0:ℚ) ≤ x) → (∀ x ∈ cm.f1, (0:ℚ) ≤ x) →
      (∀ x ∈ cm.auc, (0:ℚ) ≤ x) →
      metricsChartData mi tm = some (specClassSeries cm) := by
  intro mi tm cm h1 h2 hA hP hR hF hU
  have hmem : ∀ q ∈ [("Accuracy", cm.accuracy), ("Precision", cm.precision),
      ("Recall", cm.«recall»), ("F1", cm.f1), ("AUC", cm.auc)], ∀ x ∈ q.2, (0:ℚ) ≤ x := by
    intro q hq
    simp only [List.mem_cons, List.not_mem_nil, or_false] at hq
    rcases hq with rfl | rfl | rfl | rfl | rfl <;> assumption
  have hfilter := filter_pos_eq_filterMap
    [("Accuracy", cm.accuracy), ("Precision", cm.precision),
     ("Recall", cm.«recall»), ("F1", cm.f1), ("AUC", cm.auc)] hmem
  simp only [metricsChartData, h1, h2]
  rw [if_neg (by simp)]
  exact congrArg some hfilter

set_option maxRecDepth 8000 in
/-- C4 witness for `metricsChartData_spec`: with all five metrics present and
nonzero the series has exactly 5 points in the fixed order. -/
theorem metricsChartData_spec_witness :
    metricsChartData miSP ⟨some cmAll⟩
      = some [("Accuracy", 0.925), ("Precision", 0.912), ("Recall", 0.887),
              ("F1", 0.899), ("AUC", 0.967)] := by
  rw [metricsChartData_spec miSP ⟨some cmAll⟩ cmAll rfl rfl
    (by intro x hx; rw [Option.mem_def] at hx; injection hx with hx; rw [← hx]; norm_num)
    (by intro x hx; rw [Option.mem_def] at hx; injection hx with hx; rw [← hx]; norm_num)
    (by intro x hx; rw [Option.mem_def] at hx; injection hx with hx; rw [← hx]; norm_num)
    (by intro x hx; rw [Option.mem_def] at hx; injection hx with hx; rw [← hx]; norm_num)
    (by intro x hx; rw [Option.mem_def] at hx; injection hx with hx; rw [← hx]; norm_num)]
  with_unfolding_all decide


/-! ## C7 -/

theorem strMkData (l : List Char) : (String.mk l).data = l := rfl

theorem natCharsAux_getLast (fuel n : ℕ) :
    ∃ d, d < 10 ∧ (natCharsAux (fuel + 1) n).getLast? = some (Nat.digitChar d) := by
  unfold natCharsAux
  by_cases h : n < 10
  · exact ⟨n, h, by simp [h]⟩
  · refine ⟨n % 10, Nat.mod_lt _ (by norm_num), ?_⟩
    rw [if_neg h]
    exact List.getLast?_concat _

theorem digitChar_ne_dot {d : ℕ} (h : d < 10) : Nat.digitChar d ≠ '.' := by
  interval_cases d <;> decide

theorem padZeros_getLast? (p n : ℕ) :
    ∃ d, d < 10 ∧ (padZeros p (natChars n)).getLast? = some (Nat.digitChar d) := by
  obtain ⟨d, hd, hlast⟩ := natCharsAux_getLast n n
  refine ⟨d, hd, ?_⟩
  unfold padZeros
  rw [List.getLast?_append]
  show (natCharsAux (n + 1) n).getLast?.or _ = _
  rw [hlast]
  exact Option.or_some

theorem toFixedStr_last_digit (v : ℚ) (p : ℕ) (hp : 1 ≤ p) :
    (toFixedStr v p).data.getLast? ≠ some '.' := by
  obtain ⟨d, hd, hlast⟩ :=
    padZeros_getLast? p ((⌊|v| * (10 : ℚ) ^ p + 1 / 2⌋).toNat % 10 ^ p)
  have hgl : (toFixedStr v p).data.getLast? = some (Nat.digitChar d) := by
    simp only [toFixedStr]
    rw [if_neg (by omega : ¬ p = 0)]
    simp only [strDataAppend, strMkData]
    rw [List.getLast?_append, hlast]
    exact Option.or_some
  intro hc
  exact digitChar_ne_dot hd (Option.some.inj (hgl.symm.trans hc))

theorem regexStripL_eq_specStripL (l : List Char) (h : l.getLast? ≠ some '.') :
    regexStripL l = specStripL l := by
  unfold regexStripL specStripL stripTrailingZerosL
  by_cases h0 : l.reverse.takeWhile (· == '0') = []
  · rw [if_pos h0]
    have hdw : l.reverse.dropWhile (· == '0') = l.reverse := by
      conv_rhs => rw [← List.takeWhile_append_dropWhile (· == '0') l.reverse]
      rw [h0, List.nil_append]
    rw [hdw, List.reverse_reverse, if_neg h]
  · rw [if_neg h0]
    cases hr : l.reverse.dropWhile (· == '0') with
    | nil => rfl
    | cons c rest =>
      simp only [stripAfterZeros]
      by_cases hc : c = '.'
      · subst hc
        rw [if_pos rfl, List.reverse_cons, if_pos (List.getLast?_concat _),
          List.dropLast_concat]
      · rw [if_neg hc,
          if_neg (by rw [List.getLast?_reverse]; exact fun hcc => hc (Option.some.inj hcc))]

/-- C7: for every rational `v` and positive precision `p`, both `formatValue`
implementations compute the fixed-point rendering of `v` to `p` digits with
trailing zeros stripped and the trailing decimal point stripped when the
result is a whole number; in particular `0.9000 ↦ "0.9"` and `1.0000 ↦ "1"`. -/
theorem formatNumber_spec :
    (∀ (v : ℚ) (p : ℕ), 1 ≤ p →
        reactFormatValue (some v) p = specFormatNumber v p
        ∧ jsFormatValue (some v) p = specFormatNumber v p)
    ∧ formatValueNum (9 / 10) 4 = "0.9" ∧ formatValueNum 1 4 = "1" := by
  refine ⟨?_, by with_unfolding_all decide, by with_unfolding_all decide⟩
  intro v p hp
  have key : formatValueNum v p = specFormatNumber v p :=
    congrArg String.mk (regexStripL_eq_specStripL _ (toFixedStr_last_digit v p hp))
  exact ⟨key, key⟩

/-- C7 witness for `formatNumber_spec` at `v = 0.9`, `p = 4`. -/
theorem formatNumber_spec_witness :
    reactFormatValue (some (9 / 10)) 4 = specFormatNumber (9 / 10) 4
    ∧ specFormatNumber (9 / 10) 4 = "0.9" :=
  ⟨(formatNumber_spec.1 (9 / 10) 4 (by norm_num)).1, by with_unfolding_all decide⟩


/-! ## C9 -/

theorem lookup_bumpCount (acc : List (String × ℕ)) (a t : String) :
    (bumpCount acc a).lookup t
      = if t = a then some ((acc.lookup a).getD 0 + 1) else acc.lookup t := by
  induction acc with
  | nil =>
    by_cases h : t = a
    · subst h
      simp [bumpCount, List.lookup_cons]
    · have hbe : (t == a) = false := beq_eq_false_iff_ne.mpr h
      simp [bumpCount, List.lookup_cons, hbe, h]
  | cons kv rest ih =>
    obtain ⟨k, v⟩ := kv
    by_cases hk : k = a
    · subst hk
      by_cases ht : t = k
      · subst ht
        simp [bumpCount, List.lookup_cons]
      · have hbe : (t == k) = false := beq_eq_false_iff_ne.mpr ht
        simp [bumpCount, List.lookup_cons, hbe, ht]
    · by_cases ht : t = k
      · have hta : ¬ t = a := by rw [ht]; exact hk
        have hbe : (t == k) = true := beq_iff_eq.mpr ht
        simp [bumpCount, if_neg hk, List.lookup_cons, hbe, hta]
      · have hbe : (t == k) = false := beq_eq_false_iff_ne.mpr ht
        have hbak : (a == k) = false := beq_eq_false_iff_ne.mpr (fun hc => hk hc.symm)
        simp [bumpCount, if_neg hk, List.lookup_cons, hbe, hbak, ih]

theorem keys_bumpCount (acc : List (String × ℕ)) (a : String) :
    (bumpCount acc a).map Prod.fst
      = if a ∈ acc.map Prod.fst then acc.map Prod.fst
        else acc.map Prod.fst ++ [a] := by
  induction acc with
  | nil => simp [bumpCount]
  | cons kv rest ih =>
    obtain ⟨k, v⟩ := kv
    by_cases hk : k = a
    · subst hk; simp [bumpCount]
    · simp only [bumpCount, if_neg hk, List.map_cons, ih]
      by_cases hmem : a ∈ rest.map Prod.fst
      · simp [List.mem_cons, hmem]
      · simp [List.mem_cons, hmem, Ne.symm hk]

theorem countTypes_keys_aux (feats : List Feature) (acc : List (String × ℕ)) :
    (feats.foldl (fun acc f => bumpCount acc f.type) acc).map Prod.fst
      = (feats.map Feature.type).foldl (fun ks t => if t ∈ ks then ks else ks ++ [t])
          (acc.map Prod.fst) := by
  induction feats generalizing acc with
  | nil => rfl
  | cons f rest ih =>
    simp only [List.foldl_cons, List.map_cons]
    rw [ih, keys_bumpCount]

theorem countTypes_lookup_getD_aux (feats : List Feature) (acc : List (String × ℕ))
    (t : String) :
    ((feats.foldl (fun acc f => bumpCount acc f.type) acc).lookup t).getD 0
      = (acc.lookup t).getD 0 + (feats.map Feature.type).count t := by
  induction feats generalizing acc with
  | nil => simp
  | cons f rest ih =>
    simp only [List.foldl_cons, List.map_cons]
    rw [ih, lookup_bumpCount, List.count_cons]
    by_cases ht : t = f.type
    · subst ht
      simp only [if_pos rfl, Option.getD_some, beq_self_eq_true, if_pos]
      omega
    · have hbe : (f.type == t) = false := by
        simp only [beq_eq_false_iff_ne]
        exact fun hcontra => ht hcontra.symm
      simp [ht, hbe]

theorem countTypes_lookup_none_aux (feats : List Feature) (acc : List (String × ℕ))
    (t : String) :
    (feats.foldl (fun acc f => bumpCount acc f.type) acc).lookup t = none
      ↔ acc.lookup t = none ∧ (feats.map Feature.type).count t = 0 := by
  induction feats generalizing acc with
  | nil => simp
  | cons f rest ih =>
    simp only [List.foldl_cons, List.map_cons]
    rw [ih, lookup_bumpCount, List.count_cons]
    by_cases ht : t = f.type
    · subst ht
      simp
    · have hbe : (f.type == t) = false := by
        simp only [beq_eq_false_iff_ne]
        exact fun hcontra => ht hcontra.symm
      simp [ht, hbe]

theorem countTypes_lookup (feats : List Feature) (t : String) :
    (countTypes feats).lookup t
      = (if (feats.map Feature.type).count t = 0 then none
         else some ((feats.map Feature.type).count t)) := by
  by_cases h : (feats.map Feature.type).count t = 0
  · rw [if_pos h]
    exact (countTypes_lookup_none_aux feats [] t).mpr ⟨rfl, h⟩
  · rw [if_neg h]
    have hg : ((countTypes feats).lookup t).getD 0
        = (([] : List (String × ℕ)).lookup t).getD 0 + (feats.map Feature.type).count t :=
      countTypes_lookup_getD_aux feats [] t
    have hn : (countTypes feats).lookup t ≠ none := fun hcontra =>
      h (((countTypes_lookup_none_aux feats [] t).mp hcontra).2)
    cases hl : (countTypes feats).lookup t with
    | none => exact absurd hl hn
    | some v =>
      rw [hl] at hg
      simp only [Option.getD_some, List.lookup_nil, Option.getD_none, Nat.zero_add] at hg
      rw [hg]

theorem mem_foldl_ins (ts : List String) (acc : List String) (x : String)
    (h : x ∈ ts.foldl (fun ks t => if t ∈ ks then ks else ks ++ [t]) acc) :
    x ∈ acc ∨ x ∈ ts := by
  induction ts generalizing acc with
  | nil => exact Or.inl h
  | cons t rest ih =>
    simp only [List.foldl_cons] at h
    rcases ih _ h with h2 | h2
    · by_cases hmem : t ∈ acc
      · rw [if_pos hmem] at h2
        exact Or.inl h2
      · rw [if_neg hmem] at h2
        rcases List.mem_append.mp h2 with h3 | h3
        · exact Or.inl h3
        · simp only [List.mem_singleton] at h3
          subst h3
          exact Or.inr (List.mem_cons_self _ _)
    · exact Or.inr (List.mem_cons_of_mem _ h2)

theorem jsEntries_id {β : Type} (l : List (String × β))
    (h : ∀ p ∈ l, isArrayIndexKey p.1 = false) : jsEntries l = l := by
  unfold jsEntries
  have h1 : l.filter (fun p => isArrayIndexKey p.1) = [] :=
    List.filter_eq_nil_iff.mpr (fun p hp => by simp [h p hp])
  have h2 : l.filter (fun p => !isArrayIndexKey p.1) = l :=
    List.filter_eq_self.mpr (fun p hp => by simp [h p hp])
  rw [h1, h2]
  rfl

/-- C9 amended: when no feature-type string is an array-index key, the
histogram is exactly the insertion-ordered count object: its points list each
distinct type in order of first occurrence (`firstSeen`) and each point's
value is the number of occurrences of that type in the inventory.  (With an
array-index type string, `Object.entries` moves that key to the front.) -/
theorem featureHistogram_spec :
    ∀ feats : List Feature,
      (∀ f ∈ feats, isArrayIndexKey f.type = false) →
      featureTypeDistribution feats = countTypes feats
      ∧ (countTypes feats).map Prod.fst = firstSeen (feats.map Feature.type)
      ∧ (∀ t, (countTypes feats).lookup t
          = (if (feats.map Feature.type).count t = 0 then none
             else some ((feats.map Feature.type).count t))) := by
  intro feats h
  have hkeys : (countTypes feats).map Prod.fst = firstSeen (feats.map Feature.type) :=
    countTypes_keys_aux feats []
  refine ⟨?_, hkeys, fun t => countTypes_lookup feats t⟩
  refine jsEntries_id _ ?_
  intro p hp
  have hmem : p.1 ∈ (countTypes feats).map Prod.fst := List.mem_map_of_mem _ hp
  rw [hkeys] at hmem
  have hmem2 : p.1 ∈ feats.map Feature.type := by
    rcases mem_foldl_ins (feats.map Feature.type) [] p.1 hmem with h2 | h2
    · exact absurd h2 (List.not_mem_nil _)
    · exact h2
  obtain ⟨f, hf, hft⟩ := List.mem_map.mp hmem2
  rw [← hft]
  exact h f hf

/-- C9 counterexample: with the array-index type strings `"1"` (first seen
first) and `"0"`, `Object.entries` enumerates `"0"` before `"1"`, so the
histogram's points are not in first-occurrence order. -/
theorem featureHistogram_order_counterexample :
    featureTypeDistribution idxFeats = [("0", 1), ("1", 1)]
    ∧ firstSeen (idxFeats.map Feature.type) = ["1", "0"]
    ∧ (featureTypeDistribution idxFeats).map Prod.fst
        ≠ firstSeen (idxFeats.map Feature.type) := by
  refine ⟨?_, ?_, ?_⟩ <;> with_unfolding_all decide

/-- C9 witness for `featureHistogram_spec` at a concrete inventory with
ordinary type strings. -/
theorem featureHistogram_spec_witness :
    featureTypeDistribution plainFeats = countTypes plainFeats
    ∧ (countTypes plainFeats).map Prod.fst = firstSeen (plainFeats.map Feature.type) := by
  have h := featureHistogram_spec plainFeats (by with_unfolding_all decide)
  exact ⟨h.1, h.2.1⟩


end ModelCardVerif
